import Mathlib

/-!
Verification development for the courtroom simulation repository.

Shallow embedding of:
  - `src/tinytroupe/agent.py` (`TinyPerson`: `listen`, `act`, `define`, `_build_prompt`)
  - `src/llm_engine.py` (`OpenAIProvider.generate`: catches backend exceptions and
    returns an error string)
  - `src/case_manager.py` (`Case.__init__` with `dict.get` semantics, `load_case`)
  - `src/courtroom_simulation.py` (`TrialPhase`, `SimulationController.run`,
    `run_opening_statements`, `get_agent_action`, `send_event`,
    `create_courtroom_agents`)
  - `src/server.py` (`handler`: inbound `set_role` / `user_input` routing into the
    shared `user_input_queue`)

The interleaving of the simulation coroutine and the inbound websocket-reader
task is modelled as a step system: `simStep` is one atomic advance of the
simulation coroutine between `await` points, `applyInbound` is the handler's
processing of one inbound client message, and a schedule (`List Act`) fixes the
interleaving.  The generation backend is an oracle (`Except String String`):
`Except.ok t` is a successful completion with text `t`, `Except.error e` is a
raised exception with message `e`.
-/

namespace Courthouse

/-- The `TrialPhase` enum of `courtroom_simulation.py`, in enumeration order. -/
inductive TrialPhase
  | PRE_TRIAL
  | OPENING_STATEMENTS
  | WITNESS_EXAMINATION
  | CLOSING_STATEMENTS
  | DELIBERATION
  | VERDICT
deriving DecidableEq

/-- The six phases in enumeration order. -/
def phaseEnumOrder : List TrialPhase :=
  [.PRE_TRIAL, .OPENING_STATEMENTS, .WITNESS_EXAMINATION,
   .CLOSING_STATEMENTS, .DELIBERATION, .VERDICT]

/-- One outbound event message, discriminated exactly as the JSON objects the
controller sends (`send_event` payloads in `courtroom_simulation.py`). -/
inductive Event
  | trial_starts (case_title : String)
  | phase_starts (phase : String)
  | request_user_input (role : String)
  | agent_speaks (agent_name : String) (message : String)
  | trial_finished
deriving DecidableEq

/-- A `TinyPerson` from `tinytroupe/agent.py`: persona dict (the `"name"` key is
kept as a separate field; `persona` holds the remaining trait keys in insertion
order), the memory list, and the `is_user_controlled` flag. -/
structure Agent where
  name : String
  persona : List (String × String)
  memory : List String
  is_user_controlled : Bool
deriving DecidableEq

/-- Python dict assignment on the persona trait list: update in place if the key
exists, else append. -/
def setKey : List (String × String) → String → String → List (String × String)
  | [], k, v => [(k, v)]
  | (k', v') :: rest, k, v =>
      if k' = k then (k, v) :: rest else (k', v') :: setKey rest k v

/-- `TinyPerson.define`: sets a persona trait.  Non-string Python values (ints,
dicts) are rendered as strings; they feed only prompt text, never control flow. -/
def Agent.define (a : Agent) (k v : String) : Agent :=
  { a with persona := setKey a.persona k v }

/-- `persona.get(key, default)` for a non-`"name"` key. -/
def personaGet (a : Agent) (k dflt : String) : String :=
  match a.persona.lookup k with
  | some v => v
  | none => dflt

/-- `TinyPerson.listen`: appends `"Heard: " + message` to memory. -/
def Agent.listen (a : Agent) (m : String) : Agent :=
  { a with memory := a.memory ++ ["Heard: " ++ m] }

/-- `OpenAIProvider.generate`: on a successful backend call returns the
completion text; on any raised exception returns the caught-error string
`"Error generating text with OpenAI: " + e` instead of propagating. -/
def generate (_prompt : String) (outcome : Except String String) : String :=
  match outcome with
  | .ok t => t
  | .error e => "Error generating text with OpenAI: " ++ e

/-- `memory[-5:]`: the last at most five entries. -/
def takeLast (n : Nat) (xs : List String) : List String :=
  xs.drop (xs.length - n)

/-- `TinyPerson._build_prompt`: persona description plus the last five memory
entries. -/
def buildPrompt (a : Agent) : String :=
  let personaDesc := "You are " ++ a.name ++ ". " ++
    String.join (a.persona.map (fun kv => "Your " ++ kv.1 ++ " is " ++ kv.2 ++ ". "))
  let memoryStr := String.intercalate "\n" (takeLast 5 a.memory)
  personaDesc ++ "\n\nRecent conversation:\n" ++ memoryStr ++
    "\n\nWhat do you say or do next?"

/-- The autonomous branch of `TinyPerson.act`: build the prompt, call the
backend, append `"Said: " + response` to memory, return the response. -/
def actAuto (a : Agent) (outcome : Except String String) : String × Agent :=
  let response := generate (buildPrompt a) outcome
  (response, { a with memory := a.memory ++ ["Said: " ++ response] })

/-- `TinyPerson.act`.  User-controlled: return `memory[-1]` unchanged (Python
raises `IndexError` on an empty list, modelled as `none`).  Autonomous: the
`actAuto` path.  The `Bool` records whether the generation backend was
invoked. -/
def Agent.act (a : Agent) (outcome : Except String String) :
    Option (String × Agent × Bool) :=
  if a.is_user_controlled then
    match a.memory.getLast? with
    | some m => some (m, a, false)
    | none => none
  else
    some ((actAuto a outcome).1, (actAuto a outcome).2, true)

/-- A party object of a case JSON file (only the keys the code reads). -/
structure PartyData where
  name : Option String := none
  lawyer : Option String := none
deriving DecidableEq

/-- A parsed case JSON object; `none` in a field means the key is absent. -/
structure CaseData where
  case_number : Option String := none
  title : Option String := none
  summary : Option String := none
  legal_system : Option String := none
  plaintiff : Option PartyData := none
  defendant : Option PartyData := none
  evidence : Option (List String) := none
  witnesses : Option (List String) := none
deriving DecidableEq

/-- `case_manager.Case` after `__init__`: every field read with `.get` (absent
keys become `None`), except `evidence` and `witnesses` which default to `[]`. -/
structure Case where
  case_number : Option String
  title : Option String
  summary : Option String
  legal_system : Option String
  plaintiff : Option PartyData
  defendant : Option PartyData
  evidence : List String
  witnesses : List String
deriving DecidableEq

/-- `Case.__init__(case_data)`. -/
def mkCase (d : CaseData) : Case :=
  ⟨d.case_number, d.title, d.summary, d.legal_system, d.plaintiff, d.defendant,
   d.evidence.getD [], d.witnesses.getD []⟩

/-- `case_manager.load_case`.  The file-system outcome is the argument:
`none` = file not found, `some none` = present but unparsable JSON,
`some (some d)` = parsed object `d`.  The two caught exceptions are re-raised
as `Exception` with the messages below; parsing succeeds into `Case` with
`.get` semantics (no field validation happens here). -/
def load_case (filepath : String) (file : Option (Option CaseData)) :
    Except String Case :=
  match file with
  | none => .error ("Case file not found at: " ++ filepath)
  | some none => .error ("Error decoding JSON from file: " ++ filepath)
  | some (some d) => .ok (mkCase d)

/-- A fresh `TinyPerson(name)`. -/
def mkAgent (n : String) : Agent :=
  { name := n, persona := [], memory := [], is_user_controlled := false }

/-- `create_courtroom_agents`: builds judge, prosecutor, defense lawyer.  The
prosecutor's name is `case.plaintiff['lawyer']` and the defense lawyer's is
`case.defendant['lawyer']`: a `None` party raises `TypeError`, a party dict
without `'lawyer'` raises `KeyError`.  Returns (judge, prosecutor,
defense_lawyer). -/
def create_courtroom_agents (c : Case) : Except String (Agent × Agent × Agent) :=
  match c.plaintiff with
  | none => .error "TypeError: NoneType object is not subscriptable"
  | some pl =>
    match pl.lawyer with
    | none => .error "KeyError: lawyer"
    | some plawyer =>
      match c.defendant with
      | none => .error "TypeError: NoneType object is not subscriptable"
      | some df =>
        match df.lawyer with
        | none => .error "KeyError: lawyer"
        | some dlawyer =>
          let judge := (((mkAgent "Judge Reynolds").define "age" "65").define
            "occupation" "Judge at District Court").define
            "personality" "impartial, stern, knowledgeable in law, patient"
          let prosecutor := (((mkAgent plawyer).define "age" "35").define
            "occupation" "Prosecutor at District Attorneys Office").define
            "personality" "ambitious, skilled orator, determined, believes in evidence"
          let defense_lawyer := (((mkAgent dlawyer).define "age" "42").define
            "occupation" "Defense Lawyer at Faye and Associates").define
            "personality" "charismatic, persuasive, staunch defender, empathetic"
          .ok (judge, prosecutor, defense_lawyer)

/-- The session setup performed by `server.handler` before the simulation task
is created: `load_case` then `create_courtroom_agents`.  Any error raised here
aborts the handler before `controller.run()` is started, so no outbound event
is ever emitted. -/
def setup (filepath : String) (file : Option (Option CaseData)) :
    Except String (Case × (Agent × Agent × Agent)) :=
  match load_case filepath file with
  | .error e => .error e
  | .ok c =>
    match create_courtroom_agents c with
    | .error e => .error e
    | .ok ags => .ok (c, ags)

/-- Whether an `Except` computation completed without raising. -/
def isOkE {α : Type} (x : Except String α) : Bool :=
  match x with
  | .ok _ => true
  | .error _ => false

/-- `SimulationController.send_event`: `if self.websocket: await websocket.send(...)`.
The channel is `none` when `self.websocket` is `None` (falsy: emission silently
skipped), `some true` when present and open (send succeeds), `some false` when
present but closed (truthy object whose `send` raises `ConnectionClosed`). -/
def send_event (websocket : Option Bool) (_e : Event) : Except String Unit :=
  match websocket with
  | none => .ok ()
  | some true => .ok ()
  | some false => .error "ConnectionClosed"

/-- Program counter of the simulation coroutine `SimulationController.run`,
one value per atomic region between `await` points:
`start` = about to emit `trial_starts`; `phase` = about to emit `phase_starts`;
`turn0`/`turn1` = about to run `get_agent_action` for the prosecutor / defense
step; `wait0`/`wait1` = suspended on `user_input_queue.get()` for that step;
`finish` = about to emit `trial_finished`; `done` = coroutine returned. -/
inductive PC
  | start
  | phase
  | turn0
  | wait0
  | turn1
  | wait1
  | finish
  | done
deriving DecidableEq

/-- Full session state: the three agents of `create_courtroom_agents`, the
controller's `phase` attribute, the shared `user_input_queue`, the coroutine
program counter, and the outbound events emitted so far (in emission order). -/
structure SimState where
  judge : Agent
  pros : Agent
  defense : Agent
  phase : TrialPhase
  queue : List String
  pc : PC
  events : List Event
deriving DecidableEq

/-- Session parameters: the rendered case title and summary, the two agent
names (`plaintiff['lawyer']`, `defendant['lawyer']`), and the backend oracle
outcome for each of the two scheduled autonomous turns. -/
structure Config where
  title : String
  summary : String
  pname : String
  dname : String
  gen0 : Except String String
  gen1 : Except String String

/-- The prosecutor prompt `prompt_p` of `run_opening_statements`. -/
def promptP (cfg : Config) : String :=
  "The trial for \x27" ++ cfg.title ++
    "\x27 has begun. As the prosecutor, present your opening statement. Summarize the case: " ++
    cfg.summary ++ "."

/-- The defense prompt `prompt_d` of `run_opening_statements`. -/
def promptD (pn dn : String) : String :=
  "Thank you, " ++ pn ++ ". Now, " ++ dn ++ ", you may present your opening statement."

/-- `agent.persona.get("role", "unknown")` as used by `get_agent_action` when
emitting `request_user_input`. -/
def personaRole (a : Agent) : String :=
  personaGet a "role" "unknown"

/-- One atomic advance of the simulation coroutine (`SimulationController.run`
with `run_opening_statements` and `get_agent_action` inlined).  Returns `none`
when the coroutine cannot advance: either it has returned (`done`), or it is
suspended on `user_input_queue.get()` with an empty queue. -/
def simStep (cfg : Config) (s : SimState) : Option SimState :=
  match s.pc with
  | .start =>
      some { s with phase := .OPENING_STATEMENTS, pc := .phase,
                    events := s.events ++ [.trial_starts cfg.title] }
  | .phase =>
      some { s with pc := .turn0,
                    events := s.events ++ [.phase_starts "Opening Statements"] }
  | .turn0 =>
      let a := s.pros.listen (promptP cfg)
      if a.is_user_controlled then
        some { s with pros := a, pc := .wait0,
                      events := s.events ++ [.request_user_input (personaRole a)] }
      else
        let r := actAuto a cfg.gen0
        some { s with pros := r.2, pc := .turn1,
                      events := s.events ++ [.agent_speaks r.2.name r.1] }
  | .wait0 =>
      match s.queue with
      | [] => none
      | m :: rest =>
        let a := { s.pros with memory := s.pros.memory ++ ["Said: " ++ m] }
        some { s with pros := a, queue := rest, pc := .turn1,
                      events := s.events ++ [.agent_speaks a.name m] }
  | .turn1 =>
      let a := s.defense.listen (promptD s.pros.name s.defense.name)
      if a.is_user_controlled then
        some { s with defense := a, pc := .wait1,
                      events := s.events ++ [.request_user_input (personaRole a)] }
      else
        let r := actAuto a cfg.gen1
        some { s with defense := r.2, pc := .finish,
                      events := s.events ++ [.agent_speaks r.2.name r.1] }
  | .wait1 =>
      match s.queue with
      | [] => none
      | m :: rest =>
        let a := { s.defense with memory := s.defense.memory ++ ["Said: " ++ m] }
        some { s with defense := a, queue := rest, pc := .finish,
                      events := s.events ++ [.agent_speaks a.name m] }
  | .finish =>
      some { s with pc := .done, events := s.events ++ [.trial_finished] }
  | .done => none

/-- An inbound client message, per the `data['event']` dispatch of
`server.handler`. -/
inductive InMsg
  | set_role (role : String)
  | user_input (message : String)

/-- `{a with is_user_controlled := b}`. -/
def setUser (a : Agent) (b : Bool) : Agent :=
  { a with is_user_controlled := b }

/-- The inbound-reader's processing of one message (`server.handler` body):
`set_role "prosecutor"` sets the prosecutor user-controlled and clears the
defense lawyer; `set_role "defense"` symmetrically; any other role value is
spectator and clears both.  `user_input` unconditionally enqueues the message
text onto the shared `user_input_queue`. -/
def applyInbound (m : InMsg) (s : SimState) : SimState :=
  match m with
  | .set_role r =>
      if r = "prosecutor" then
        { s with pros := setUser s.pros true, defense := setUser s.defense false }
      else if r = "defense" then
        { s with defense := setUser s.defense true, pros := setUser s.pros false }
      else
        { s with pros := setUser s.pros false, defense := setUser s.defense false }
  | .user_input msg => { s with queue := s.queue ++ [msg] }

/-- One scheduling action of the interleaved system: `tick` lets the simulation
coroutine advance one atomic step (a no-op when it is suspended or finished);
`msg m` delivers one inbound client message to the reader task. -/
inductive Act
  | tick
  | msg (m : InMsg)

/-- Apply one scheduling action. -/
def stepAct (cfg : Config) (s : SimState) (a : Act) : SimState :=
  match a with
  | .tick => (simStep cfg s).getD s
  | .msg m => applyInbound m s

/-- Run a schedule of interleaved actions. -/
def exec (cfg : Config) (sched : List Act) (s : SimState) : SimState :=
  sched.foldl (stepAct cfg) s

/-- The judge agent built by `create_courtroom_agents`. -/
def mkJudge : Agent :=
  (((mkAgent "Judge Reynolds").define "age" "65").define
    "occupation" "Judge at District Court").define
    "personality" "impartial, stern, knowledgeable in law, patient"

/-- The prosecutor agent built by `create_courtroom_agents`. -/
def mkProsecutor (n : String) : Agent :=
  (((mkAgent n).define "age" "35").define
    "occupation" "Prosecutor at District Attorneys Office").define
    "personality" "ambitious, skilled orator, determined, believes in evidence"

/-- The defense-lawyer agent built by `create_courtroom_agents`. -/
def mkDefense (n : String) : Agent :=
  (((mkAgent n).define "age" "42").define
    "occupation" "Defense Lawyer at Faye and Associates").define
    "personality" "charismatic, persuasive, staunch defender, empathetic"

/-- Initial session state, as `server.handler` sets it up before starting the
simulation task: fresh agents (all autonomous), empty queue, `PRE_TRIAL`,
coroutine at its entry point, no events emitted. -/
def initState (cfg : Config) : SimState :=
  { judge := mkJudge, pros := mkProsecutor cfg.pname,
    defense := mkDefense cfg.dname, phase := .PRE_TRIAL,
    queue := [], pc := .start, events := [] }

/-- The `phase` payloads of the `phase_starts` events of a trace, in order. -/
def phaseStartsOf (es : List Event) : List String :=
  es.filterMap (fun e => match e with
    | .phase_starts p => some p
    | _ => none)

/-- Number of participants currently in human-controlled mode. -/
def ctrlCount (s : SimState) : Nat :=
  (if s.judge.is_user_controlled then 1 else 0) +
  (if s.pros.is_user_controlled then 1 else 0) +
  (if s.defense.is_user_controlled then 1 else 0)

/-- A concrete session configuration with a healthy backend (used for concrete
traces). -/
def cfg0 : Config :=
  { title := "State v. Doe", summary := "A case about a disputed contract.",
    pname := "Sarah Chen", dname := "John Doe",
    gen0 := .ok "I will prove guilt beyond reasonable doubt.",
    gen1 := .ok "My client is innocent." }

/-- A schedule of five simulation ticks and no inbound messages: the autonomous
end-to-end run. -/
def ticks5 : List Act := [.tick, .tick, .tick, .tick, .tick]

/-- The `phase_starts` payload list a state's program counter determines: empty
until the `phase` step has run, `["Opening Statements"]` from then on. -/
def phaseTarget : PC → List String
  | .start => []
  | .phase => []
  | _ => ["Opening Statements"]

/-- Trace invariant tying the emitted `phase_starts` events to the coroutine's
program counter. -/
def InvPhase (s : SimState) : Prop := phaseStartsOf s.events = phaseTarget s.pc

/-- State invariant: the judge is never human-controlled (no `set_role` branch
touches it) and the prosecutor and defense lawyer are never human-controlled
simultaneously. -/
def InvCtrl (s : SimState) : Prop :=
  s.judge.is_user_controlled = false ∧
    (s.pros.is_user_controlled = false ∨ s.defense.is_user_controlled = false)

/-- Schedule: make the prosecutor human-controlled, run to its suspension
point, deliver the user message `t`, run to completion. -/
def sched3v (t : String) : List Act :=
  [.msg (.set_role "prosecutor"), .tick, .tick, .tick, .msg (.user_input t),
   .tick, .tick, .tick]

/-- `sched3v` at a concrete message. -/
def sched3 : List Act := sched3v "We rest our case"

/-- Schedule: make the defense lawyer human-controlled, run through the
prosecutor's autonomous turn to the defense suspension point, deliver the user
message `t`, run to completion. -/
def sched3d (t : String) : List Act :=
  [.msg (.set_role "defense"), .tick, .tick, .tick, .tick, .msg (.user_input t),
   .tick, .tick]

/-- Session configuration in which the backend raises on both autonomous
turns, with exception messages `e0` and `e1`. -/
def cfg5 (e0 e1 : String) : Config :=
  { cfg0 with gen0 := .error e0, gen1 := .error e1 }

/-- Schedule: a `user_input` message arrives first, while the simulation is at
its entry point and both lawyers are autonomous (nobody awaits input); then the
prosecutor is made human-controlled and the session runs to completion. -/
def sched6v (t : String) : List Act :=
  [.msg (.user_input t), .msg (.set_role "prosecutor"), .tick, .tick, .tick,
   .tick, .tick, .tick]

/-- `sched6v` at a concrete stale message. -/
def sched6 : List Act := sched6v "stale"

/-- A parsed case JSON object that has both lawyer fields but lacks the `title`
and `summary` keys entirely. -/
def lackingTitleData : CaseData :=
  { plaintiff := some { lawyer := some "Sarah Chen" },
    defendant := some { lawyer := some "John Doe" } }

/-- Schedule: make the prosecutor human-controlled and advance the simulation
until it suspends on `user_input_queue.get()`. -/
def sched9 : List Act := [.msg (.set_role "prosecutor"), .tick, .tick, .tick]

/-- A concrete reachable state suspended on human input for the prosecutor,
with an empty queue. -/
def s9 : SimState := exec cfg0 sched9 (initState cfg0)

/-- Schedule: make the defense lawyer human-controlled and advance the
simulation (through the prosecutor's autonomous turn) until it suspends on
`user_input_queue.get()` for the defense turn. -/
def sched9d : List Act := [.msg (.set_role "defense"), .tick, .tick, .tick, .tick]

/-- A concrete reachable state suspended on human input for the defense
lawyer, with an empty queue. -/
def s9d : SimState := exec cfg0 sched9d (initState cfg0)

/-- A human-controlled participant with non-empty memory. -/
def a10 : Agent :=
  { mkProsecutor "Sarah Chen" with
      is_user_controlled := true, memory := ["Heard: please begin"] }

/-- Extracting `phase_starts` payloads distributes over trace append. -/
theorem phaseStartsOf_append (es es' : List Event) :
    phaseStartsOf (es ++ es') = phaseStartsOf es ++ phaseStartsOf es' :=
  List.filterMap_append es es' _

/-- Every scheduling action preserves the phase-event invariant. -/
theorem invPhase_stepAct (cfg : Config) (s : SimState) (a : Act) (h : InvPhase s) :
    InvPhase (stepAct cfg s a) := by
  unfold InvPhase at h ⊢
  cases a with
  | msg m =>
    cases m with
    | set_role r =>
      simp only [stepAct, applyInbound]
      split_ifs <;> simpa using h
    | user_input t => simpa [stepAct, applyInbound] using h
  | tick =>
    simp only [stepAct]
    cases hpc : s.pc <;> rw [hpc] at h <;>
      simp_all [simStep, phaseStartsOf_append, phaseStartsOf, phaseTarget]
    case turn0 =>
      cases hb : (s.pros.listen (promptP cfg)).is_user_controlled <;>
        simp_all [phaseStartsOf_append, phaseStartsOf]
    case turn1 =>
      cases hb : (s.defense.listen (promptD s.pros.name s.defense.name)).is_user_controlled <;>
        simp_all [phaseStartsOf_append, phaseStartsOf]
    case wait0 =>
      cases hq : s.queue <;> simp_all [phaseStartsOf_append, phaseStartsOf]
    case wait1 =>
      cases hq : s.queue <;> simp_all [phaseStartsOf_append, phaseStartsOf]

/-- The phase-event invariant holds along any schedule. -/
theorem invPhase_exec (cfg : Config) (sched : List Act) (s : SimState) (h : InvPhase s) :
    InvPhase (exec cfg sched s) := by
  induction sched generalizing s with
  | nil => exact h
  | cons a rest ih => exact ih _ (invPhase_stepAct cfg s a h)

/-- Every scheduling action preserves the mode invariant. -/
theorem invCtrl_stepAct (cfg : Config) (s : SimState) (a : Act) (h : InvCtrl s) :
    InvCtrl (stepAct cfg s a) := by
  unfold InvCtrl at h ⊢
  cases a with
  | msg m =>
    cases m with
    | set_role r =>
      simp only [stepAct, applyInbound]
      split_ifs <;> simp [setUser, h.1]
    | user_input t => simpa [stepAct, applyInbound] using h
  | tick =>
    simp only [stepAct]
    cases hpc : s.pc <;>
      simp_all [simStep, actAuto, Agent.listen]
    case turn0 =>
      cases hb : (s.pros.listen (promptP cfg)).is_user_controlled <;>
        simp_all [Agent.listen, actAuto]
    case turn1 =>
      cases hb : (s.defense.listen (promptD s.pros.name s.defense.name)).is_user_controlled <;>
        simp_all [Agent.listen, actAuto]
    case wait0 =>
      cases hq : s.queue <;> simp_all
    case wait1 =>
      cases hq : s.queue <;> simp_all

/-- The mode invariant holds along any schedule. -/
theorem invCtrl_exec (cfg : Config) (sched : List Act) (s : SimState) (h : InvCtrl s) :
    InvCtrl (exec cfg sched s) := by
  induction sched generalizing s with
  | nil => exact h
  | cons a rest ih => exact ih _ (invCtrl_stepAct cfg s a h)

/-- C1 (amended): for every session configuration and every interleaving of
inbound messages under which the session runs to completion, the sequence of
`phase_starts` events emitted is exactly one event, for Opening Statements;
no other enumerated phase ever emits `phase_starts`. -/
theorem c1_phase_starts_opening_only (cfg : Config) (sched : List Act)
    (h : (exec cfg sched (initState cfg)).pc = PC.done) :
    phaseStartsOf (exec cfg sched (initState cfg)).events = ["Opening Statements"] := by
  have hI := invPhase_exec cfg sched (initState cfg)
    (by simp [InvPhase, initState, phaseStartsOf, phaseTarget])
  unfold InvPhase at hI
  rw [h] at hI
  simpa [phaseTarget] using hI

/-- C1 witness: a concrete completed session, with its single `phase_starts`
event. -/
theorem c1_witness :
    (exec cfg0 ticks5 (initState cfg0)).pc = PC.done ∧
      phaseStartsOf (exec cfg0 ticks5 (initState cfg0)).events = ["Opening Statements"] :=
  ⟨by decide, c1_phase_starts_opening_only cfg0 ticks5 (by decide)⟩

/-- C1 counterexample: a session that runs to completion emits one
`phase_starts` event, not one per member of the six-phase enumeration. -/
theorem c1_counterexample :
    (exec cfg0 ticks5 (initState cfg0)).pc = PC.done ∧
      (phaseStartsOf (exec cfg0 ticks5 (initState cfg0)).events).length = 1 ∧
      phaseEnumOrder.length = 6 ∧
      (phaseStartsOf (exec cfg0 ticks5 (initState cfg0)).events).length ≠
        phaseEnumOrder.length := by
  decide

/-- C2 (confirmed): for the case titled "State v. Doe" with both participants
autonomous and no inbound messages, the completed run emits exactly
`trial_starts`, `phase_starts` (Opening Statements), `agent_speaks` for the
prosecutor, `agent_speaks` for the defense lawyer, `trial_finished`, in that
order and nothing else. -/
theorem c2_end_to_end :
    (exec cfg0 ticks5 (initState cfg0)).events =
      [.trial_starts "State v. Doe", .phase_starts "Opening Statements",
       .agent_speaks "Sarah Chen" "I will prove guilt beyond reasonable doubt.",
       .agent_speaks "John Doe" "My client is innocent.",
       .trial_finished] ∧
    (exec cfg0 ticks5 (initState cfg0)).pc = PC.done := by
  decide

/-- C3 counterexample: with the prosecutor human-controlled, the suspension
emits `request_user_input` with role field `"unknown"` — no
`request_user_input` event carrying the prosecutor's role is ever emitted,
because `create_courtroom_agents` never defines a `"role"` persona key and
`get_agent_action` falls back to `persona.get("role", "unknown")`. -/
theorem c3_counterexample :
    (exec cfg0 sched3 (initState cfg0)).events =
      [.trial_starts "State v. Doe", .phase_starts "Opening Statements",
       .request_user_input "unknown",
       .agent_speaks "Sarah Chen" "We rest our case",
       .agent_speaks "John Doe" "My client is innocent.", .trial_finished] ∧
    Event.request_user_input "prosecutor" ∉ (exec cfg0 sched3 (initState cfg0)).events := by
  decide

/-- C3 (amended): for each human-controllable role — the prosecutor and the
defense lawyer — setting that role human-controlled before its turn and
delivering `user_input` text `t` while that role's turn awaits input makes the
next `agent_speaks` event for that role carry exactly `t` verbatim; the context
prompt was appended to that participant's history as heard before suspending, a
`request_user_input` event was emitted with role field `"unknown"` (the persona
has no `"role"` key), and `t` is appended to its history as spoke. -/
theorem c3_user_input_verbatim (t : String) :
    ((exec cfg0 (sched3v t) (initState cfg0)).events =
      [.trial_starts "State v. Doe", .phase_starts "Opening Statements",
       .request_user_input "unknown", .agent_speaks "Sarah Chen" t,
       .agent_speaks "John Doe" "My client is innocent.", .trial_finished] ∧
     (exec cfg0 (sched3v t) (initState cfg0)).pros.memory =
      ["Heard: " ++ promptP cfg0, "Said: " ++ t]) ∧
    ((exec cfg0 (sched3d t) (initState cfg0)).events =
      [.trial_starts "State v. Doe", .phase_starts "Opening Statements",
       .agent_speaks "Sarah Chen" "I will prove guilt beyond reasonable doubt.",
       .request_user_input "unknown", .agent_speaks "John Doe" t,
       .trial_finished] ∧
     (exec cfg0 (sched3d t) (initState cfg0)).defense.memory =
      ["Heard: " ++ promptD "Sarah Chen" "John Doe", "Said: " ++ t]) :=
  ⟨⟨rfl, rfl⟩, ⟨rfl, rfl⟩⟩

/-- C4 (confirmed): in every reachable session state, at most one participant
is human-controlled; this still holds right after processing any further
`set_role` message; that `set_role` leaves exactly the addressed role (and no
other participant) human-controlled; and reapplying the same `set_role` is
idempotent. -/
theorem c4_single_human (cfg : Config) (sched : List Act) (r : String) :
    ctrlCount (exec cfg sched (initState cfg)) ≤ 1 ∧
    ctrlCount (applyInbound (.set_role r) (exec cfg sched (initState cfg))) ≤ 1 ∧
    ((applyInbound (.set_role r) (exec cfg sched (initState cfg))).judge.is_user_controlled = false ∧
     (applyInbound (.set_role r) (exec cfg sched (initState cfg))).pros.is_user_controlled =
       (if r = "prosecutor" then true else false) ∧
     (applyInbound (.set_role r) (exec cfg sched (initState cfg))).defense.is_user_controlled =
       (if r = "defense" then true else false)) ∧
    applyInbound (.set_role r) (applyInbound (.set_role r) (exec cfg sched (initState cfg))) =
      applyInbound (.set_role r) (exec cfg sched (initState cfg)) := by
  obtain ⟨hj, hpd⟩ := invCtrl_exec cfg sched (initState cfg)
    (by constructor <;> simp [InvCtrl, initState, mkJudge, mkProsecutor, mkDefense, mkAgent,
      Agent.define])
  refine ⟨?_, ?_, ?_, ?_⟩
  · rcases hpd with h | h <;> simp [ctrlCount, hj, h] <;> split <;> simp
  · by_cases h1 : r = "prosecutor"
    · subst h1; simp [applyInbound, setUser, ctrlCount, hj]
    · by_cases h2 : r = "defense"
      · subst h2; simp [applyInbound, setUser, ctrlCount, hj, h1]
      · simp [applyInbound, setUser, ctrlCount, hj, h1, h2]
  · by_cases h1 : r = "prosecutor"
    · subst h1; simp [applyInbound, setUser, hj]
    · by_cases h2 : r = "defense"
      · subst h2; simp [applyInbound, setUser, hj, h1]
      · simp [applyInbound, setUser, hj, h1, h2]
  · by_cases h1 : r = "prosecutor"
    · subst h1; simp [applyInbound, setUser]
    · by_cases h2 : r = "defense"
      · subst h2; simp [applyInbound, setUser, h1]
      · simp [applyInbound, setUser, h1, h2]

/-- C5 (confirmed): when the generation backend raises on an autonomous turn,
that turn yields exactly one `agent_speaks` event whose message is the caught
error string ("Error generating text with OpenAI: " followed by the exception
text), the error is not propagated (the session still runs to completion), and
the phase proceeds to its next step (the defense turn and `trial_finished`
still happen, in order). -/
theorem c5_backend_failure_surfaced (e0 e1 : String) :
    (exec (cfg5 e0 e1) ticks5 (initState (cfg5 e0 e1))).events =
      [.trial_starts "State v. Doe", .phase_starts "Opening Statements",
       .agent_speaks "Sarah Chen" ("Error generating text with OpenAI: " ++ e0),
       .agent_speaks "John Doe" ("Error generating text with OpenAI: " ++ e1),
       .trial_finished] ∧
    (exec (cfg5 e0 e1) ticks5 (initState (cfg5 e0 e1))).pc = PC.done :=
  ⟨rfl, rfl⟩

/-- C6 counterexample: a `user_input` message ("stale") arriving while no role
awaits input (simulation at its entry point, all participants autonomous) is
not discarded — it stays in the queue and is later delivered verbatim as the
utterance of the next role to await input (the prosecutor). -/
theorem c6_counterexample :
    (initState cfg0).pc = PC.start ∧
    (initState cfg0).pros.is_user_controlled = false ∧
    (initState cfg0).defense.is_user_controlled = false ∧
    (initState cfg0).judge.is_user_controlled = false ∧
    Event.agent_speaks "Sarah Chen" "stale" ∈ (exec cfg0 sched6 (initState cfg0)).events := by
  decide

/-- C6 (amended): a `user_input` message arriving when no role awaits input
produces no outbound event and does not crash the session (the handler simply
enqueues it), but it is not discarded: it remains on the shared queue and is
delivered as the utterance of the next subsequently waiting role. -/
theorem c6_user_input_queued (s : SimState) (t : String) :
    (applyInbound (.user_input t) s).events = s.events ∧
    (applyInbound (.user_input t) s).pc = s.pc ∧
    (applyInbound (.user_input t) s).pros = s.pros ∧
    (applyInbound (.user_input t) s).defense = s.defense ∧
    (applyInbound (.user_input t) s).queue = s.queue ++ [t] ∧
    (exec cfg0 (sched6v t) (initState cfg0)).events =
      [.trial_starts "State v. Doe", .phase_starts "Opening Statements",
       .request_user_input "unknown", .agent_speaks "Sarah Chen" t,
       .agent_speaks "John Doe" "My client is innocent.", .trial_finished] :=
  ⟨rfl, rfl, rfl, rfl, rfl, rfl⟩

/-- C7 counterexample: an emission attempted on a present-but-closed outbound
channel raises (`send` throws `ConnectionClosed`): `send_event` does not fail
silently in that case. -/
theorem c7_counterexample :
    send_event (some false) Event.trial_finished = Except.error "ConnectionClosed" ∧
    isOkE (send_event (some false) Event.trial_finished) = false :=
  ⟨rfl, rfl⟩

/-- C7 (amended): `send_event` skips emission silently only when no websocket
is set (`self.websocket` falsy); with a present open channel it sends; with a
present closed channel the underlying `send` raises and the exception
propagates out of `send_event`. -/
theorem c7_send_event_behavior (e : Event) :
    send_event none e = Except.ok () ∧
    send_event (some true) e = Except.ok () ∧
    send_event (some false) e = Except.error "ConnectionClosed" :=
  ⟨rfl, rfl, rfl⟩

/-- C8 counterexample: a parsed case object lacking both `title` and `summary`
(but carrying the two lawyer names) passes setup without any error — the
session starts despite the missing required fields. -/
theorem c8_counterexample :
    lackingTitleData.title = none ∧ lackingTitleData.summary = none ∧
    isOkE (setup "cases/case-001.json" (some (some lackingTitleData))) = true := by
  decide

/-- C8 (amended): setup raises a fatal error for a missing file, for unparsable
JSON, and for valid JSON whose `plaintiff`/`defendant` object or its `lawyer`
field is absent (the error arises in `create_courtroom_agents`, before any
event is emitted); but `title` and `summary` are never validated — a case
lacking them passes setup and the session starts. -/
theorem c8_setup_errors (path : String) (d : CaseData) (pl dl : PartyData)
    (t s : Option String) (pn dn : String) :
    isOkE (setup path none) = false ∧
    isOkE (setup path (some none)) = false ∧
    isOkE (setup path (some (some { d with plaintiff := none }))) = false ∧
    isOkE (setup path (some (some { d with
      plaintiff := some { pl with lawyer := none } }))) = false ∧
    isOkE (setup path (some (some { d with
      plaintiff := some { pl with lawyer := some pn },
      defendant := none }))) = false ∧
    isOkE (setup path (some (some { d with
      plaintiff := some { pl with lawyer := some pn },
      defendant := some { dl with lawyer := none } }))) = false ∧
    isOkE (setup path (some (some { d with
      title := t, summary := s,
      plaintiff := some { pl with lawyer := some pn },
      defendant := some { dl with lawyer := some dn } }))) = true :=
  ⟨rfl, rfl, rfl, rfl, rfl, rfl, rfl⟩

/-- C9 (confirmed): while either role's turn is suspended awaiting human input
(program counter at the prosecutor's or the defense lawyer's suspension point,
empty queue), the inbound reader stays live: a `set_role` message is applied
immediately (modes update) without unblocking the suspended turn or touching
its queue and program counter, the suspended coroutine itself cannot advance,
and only a `user_input` message unblocks it — the resumed turn belongs to the
currently waiting role and carries the delivered text verbatim. -/
theorem c9_wait_concurrency (cfg : Config) (s : SimState) (r t : String)
    (hpc : s.pc = PC.wait0 ∨ s.pc = PC.wait1) (hq : s.queue = []) :
    (applyInbound (.set_role r) s).pc = s.pc ∧
    (applyInbound (.set_role r) s).queue = [] ∧
    (applyInbound (.set_role r) s).pros.is_user_controlled =
      (if r = "prosecutor" then true else false) ∧
    (applyInbound (.set_role r) s).defense.is_user_controlled =
      (if r = "defense" then true else false) ∧
    simStep cfg s = none ∧
    simStep cfg (applyInbound (.set_role r) s) = none ∧
    simStep cfg (applyInbound (.user_input t) s) =
      some (if s.pc = PC.wait0 then
              { s with pros := { s.pros with memory := s.pros.memory ++ ["Said: " ++ t] },
                       queue := [], pc := PC.turn1,
                       events := s.events ++ [Event.agent_speaks s.pros.name t] }
            else
              { s with defense := { s.defense with memory := s.defense.memory ++ ["Said: " ++ t] },
                       queue := [], pc := PC.finish,
                       events := s.events ++ [Event.agent_speaks s.defense.name t] }) := by
  obtain ⟨j, p, d, ph, q, pc, ev⟩ := s
  simp only at hpc hq
  subst hq
  rcases hpc with hpc | hpc <;> subst hpc
  · refine ⟨?_, ?_, ?_, ?_, ?_, ?_, ?_⟩
    · by_cases h1 : r = "prosecutor" <;> by_cases h2 : r = "defense" <;>
        simp [applyInbound, setUser, h1, h2]
    · by_cases h1 : r = "prosecutor" <;> by_cases h2 : r = "defense" <;>
        simp [applyInbound, setUser, h1, h2]
    · by_cases h1 : r = "prosecutor" <;> by_cases h2 : r = "defense" <;>
        simp_all [applyInbound, setUser]
    · by_cases h1 : r = "prosecutor" <;> by_cases h2 : r = "defense" <;>
        simp_all [applyInbound, setUser]
    · simp [simStep]
    · by_cases h1 : r = "prosecutor" <;> by_cases h2 : r = "defense" <;>
        simp [applyInbound, setUser, simStep, h1, h2]
    · simp [applyInbound, simStep]
  · refine ⟨?_, ?_, ?_, ?_, ?_, ?_, ?_⟩
    · by_cases h1 : r = "prosecutor" <;> by_cases h2 : r = "defense" <;>
        simp [applyInbound, setUser, h1, h2]
    · by_cases h1 : r = "prosecutor" <;> by_cases h2 : r = "defense" <;>
        simp [applyInbound, setUser, h1, h2]
    · by_cases h1 : r = "prosecutor" <;> by_cases h2 : r = "defense" <;>
        simp_all [applyInbound, setUser]
    · by_cases h1 : r = "prosecutor" <;> by_cases h2 : r = "defense" <;>
        simp_all [applyInbound, setUser]
    · simp [simStep]
    · by_cases h1 : r = "prosecutor" <;> by_cases h2 : r = "defense" <;>
        simp [applyInbound, setUser, simStep, h1, h2]
    · simp [applyInbound, simStep]

/-- C9 witness: the concrete suspended states `s9` (prosecutor waiting) and
`s9d` (defense lawyer waiting) satisfy the hypotheses, and delivering a
concrete utterance resumes exactly the waiting role's turn in each. -/
theorem c9_witness :
    (s9.pc = PC.wait0 ∨ s9.pc = PC.wait1) ∧ s9.queue = [] ∧
    (s9d.pc = PC.wait0 ∨ s9d.pc = PC.wait1) ∧ s9d.queue = [] ∧
    simStep cfg0 (applyInbound (.user_input "hello") s9) =
      some { s9 with pros := { s9.pros with memory := s9.pros.memory ++ ["Said: hello"] },
                     queue := [], pc := PC.turn1,
                     events := s9.events ++ [Event.agent_speaks s9.pros.name "hello"] } ∧
    simStep cfg0 (applyInbound (.user_input "bye") s9d) =
      some { s9d with defense := { s9d.defense with memory := s9d.defense.memory ++ ["Said: bye"] },
                      queue := [], pc := PC.finish,
                      events := s9d.events ++ [Event.agent_speaks s9d.defense.name "bye"] } :=
  ⟨Or.inl (by decide), by decide, Or.inr (by decide), by decide,
   ((c9_wait_concurrency cfg0 s9 "defense" "hello"
      (Or.inl (by decide)) (by decide)).2.2.2.2.2.2).trans (by decide),
   ((c9_wait_concurrency cfg0 s9d "prosecutor" "bye"
      (Or.inr (by decide)) (by decide)).2.2.2.2.2.2).trans (by decide)⟩

/-- C10 (confirmed): for a human-controlled participant with non-empty memory,
`act()` returns the most recent memory entry unchanged, leaves the participant
(memory and persona) unchanged, and does not invoke the generation backend. -/
theorem c10_act_user_controlled (a : Agent) (g : Except String String)
    (hu : a.is_user_controlled = true) (hm : a.memory ≠ []) :
    a.act g = some (a.memory.getLast hm, a, false) := by
  simp [Agent.act, hu, List.getLast?_eq_getLast a.memory hm]

/-- C10 witness: a concrete human-controlled participant whose last memory
entry is something it heard; `act()` returns it unchanged without touching the
agent or the backend. -/
theorem c10_witness :
    a10.is_user_controlled = true ∧ a10.memory ≠ [] ∧
      a10.act (Except.ok "backend text") = some ("Heard: please begin", a10, false) :=
  ⟨rfl, by decide,
    (c10_act_user_controlled a10 (Except.ok "backend text") rfl (by decide)).trans (by decide)⟩

end Courthouse
